import Mathlib

/-!
Shallow embedding of the `memfd-rs` crate (src/src/sealing.rs,
src/src/memfd.rs, src/src/errors.rs) and proofs about its seal codec,
options builder, handle operations and error taxonomy.

Machine integers are modelled as `Nat` bitmasks (all flag words involved are
small non-negative values, far below 2^32, so no wrap-around occurs).
Syscalls are modelled by a `Kernel` record of response functions plus an
`errno` cell; each syscall site additionally returns the list of syscalls it
issued, so that "no syscall is performed" and "exactly this bitmask is
passed to the syscall" are directly statable.
-/

namespace Memfdrs

/-- Seal kind `FileSeal` from src/src/sealing.rs: a seal that can be applied
to a `Memfd`. -/
inductive FileSeal where
  /-- File cannot be reduced in size (`F_SEAL_SHRINK`). -/
  | SealShrink
  /-- File cannot be grown in size (`F_SEAL_GROW`). -/
  | SealGrow
  /-- File cannot be written (`F_SEAL_WRITE`). -/
  | SealWrite
  /-- File sealing cannot be further manipulated (`F_SEAL_SEAL`). -/
  | SealSeal
deriving DecidableEq, Fintype, Repr

namespace SealFlags

/-- Seal bit `rustix::fs::SealFlags::SEAL` = `F_SEAL_SEAL` (Linux ABI 0x0001). -/
def SEAL : Nat := 0x0001

/-- Seal bit `rustix::fs::SealFlags::SHRINK` = `F_SEAL_SHRINK` (Linux ABI 0x0002). -/
def SHRINK : Nat := 0x0002

/-- Seal bit `rustix::fs::SealFlags::GROW` = `F_SEAL_GROW` (Linux ABI 0x0004). -/
def GROW : Nat := 0x0004

/-- Seal bit `rustix::fs::SealFlags::WRITE` = `F_SEAL_WRITE` (Linux ABI 0x0008). -/
def WRITE : Nat := 0x0008

end SealFlags

/-- Method `FileSeal::bitflags` from src/src/sealing.rs: the bit-wise flag
value of this seal. -/
def FileSeal.bitflags : FileSeal → Nat
  | FileSeal.SealSeal => SealFlags.SEAL
  | FileSeal.SealShrink => SealFlags.SHRINK
  | FileSeal.SealGrow => SealFlags.GROW
  | FileSeal.SealWrite => SealFlags.WRITE

/-- Type alias `SealsHashSet` from src/src/sealing.rs, a `HashSet<FileSeal>`,
modelled as a `Finset` (insertion order irrelevant, duplicates impossible). -/
abbrev SealsHashSet := Finset FileSeal

instance : Std.Commutative fun (a b : Nat) => a ||| b := ⟨Nat.lor_comm⟩

instance : Std.Associative fun (a b : Nat) => a ||| b := ⟨Nat.lor_assoc⟩

/-- Function `seals_to_bitflags` from src/src/sealing.rs: OR together the flag
value of every seal in the set, starting from the empty bitflags value. -/
def seals_to_bitflags (seals : SealsHashSet) : Nat :=
  Finset.fold (fun a b => a ||| b) 0 FileSeal.bitflags seals

/-- Function `bitflags_to_seals` from src/src/sealing.rs: insert each seal
whose bit is contained in the bitflags value (`contains` of the bitflags
crate: `mask &&& bit == bit`), starting from the empty set. -/
def bitflags_to_seals (bitflags : Nat) : SealsHashSet :=
  let sset : SealsHashSet := ∅
  let sset := if (bitflags &&& SealFlags.SEAL == SealFlags.SEAL)
    then insert FileSeal.SealSeal sset else sset
  let sset := if (bitflags &&& SealFlags.SHRINK == SealFlags.SHRINK)
    then insert FileSeal.SealShrink sset else sset
  let sset := if (bitflags &&& SealFlags.GROW == SealFlags.GROW)
    then insert FileSeal.SealGrow sset else sset
  let sset := if (bitflags &&& SealFlags.WRITE == SealFlags.WRITE)
    then insert FileSeal.SealWrite sset else sset
  sset

namespace nr

/-- Modelled from the spec: the `nr` module of creation-flag constants used by
src/src/memfd.rs is not under src/. Values are the kernel ABI bit constants
the spec's external-interface section references. `MFD_CLOEXEC` (0x0001). -/
def MFD_CLOEXEC : Nat := 0x0001

/-- Modelled from the spec: `MFD_ALLOW_SEALING` kernel ABI bit (0x0002). -/
def MFD_ALLOW_SEALING : Nat := 0x0002

/-- Modelled from the spec: `MFD_HUGETLB` kernel ABI bit (0x0004). -/
def MFD_HUGETLB : Nat := 0x0004

/-- Modelled from the spec: hugetlb page-size selector bits, each a distinct
kernel ABI constant (`log2(size) << MFD_HUGE_SHIFT` with shift 26). -/
def MFD_HUGE_64KB : Nat := 16 <<< 26

/-- Modelled from the spec: kernel ABI constant for 512KB hugetlb pages. -/
def MFD_HUGE_512KB : Nat := 19 <<< 26

/-- Modelled from the spec: kernel ABI constant for 1MB hugetlb pages. -/
def MFD_HUGE_1MB : Nat := 20 <<< 26

/-- Modelled from the spec: kernel ABI constant for 2MB hugetlb pages. -/
def MFD_HUGE_2MB : Nat := 21 <<< 26

/-- Modelled from the spec: kernel ABI constant for 8MB hugetlb pages. -/
def MFD_HUGE_8MB : Nat := 23 <<< 26

/-- Modelled from the spec: kernel ABI constant for 16MB hugetlb pages. -/
def MFD_HUGE_16MB : Nat := 24 <<< 26

/-- Modelled from the spec: kernel ABI constant for 256MB hugetlb pages. -/
def MFD_HUGE_256MB : Nat := 28 <<< 26

/-- Modelled from the spec: kernel ABI constant for 1GB hugetlb pages. -/
def MFD_HUGE_1GB : Nat := 30 <<< 26

/-- Modelled from the spec: kernel ABI constant for 2GB hugetlb pages. -/
def MFD_HUGE_2GB : Nat := 31 <<< 26

/-- Modelled from the spec: kernel ABI constant for 16GB hugetlb pages
(`34 <<< 26`, reduced modulo the 32-bit flag word as in the C headers). -/
def MFD_HUGE_16GB : Nat := (34 <<< 26) % (2 ^ 32)

end nr

/-- Enum `HugetlbSize` from src/src/memfd.rs: page size for a hugetlb
anonymous file. -/
inductive HugetlbSize where
  /-- 64KB hugetlb page. -/
  | Huge64KB
  /-- 512KB hugetlb page. -/
  | Huge512KB
  /-- 1MB hugetlb page. -/
  | Huge1MB
  /-- 2MB hugetlb page. -/
  | Huge2MB
  /-- 8MB hugetlb page. -/
  | Huge8MB
  /-- 16MB hugetlb page. -/
  | Huge16MB
  /-- 256MB hugetlb page. -/
  | Huge256MB
  /-- 1GB hugetlb page. -/
  | Huge1GB
  /-- 2GB hugetlb page. -/
  | Huge2GB
  /-- 16GB hugetlb page. -/
  | Huge16GB
deriving DecidableEq, Fintype, Repr

/-- Method `HugetlbSize::bitflags` from src/src/memfd.rs. -/
def HugetlbSize.bitflags : HugetlbSize → Nat
  | HugetlbSize.Huge64KB => nr.MFD_HUGE_64KB
  | HugetlbSize.Huge512KB => nr.MFD_HUGE_512KB
  | HugetlbSize.Huge1MB => nr.MFD_HUGE_1MB
  | HugetlbSize.Huge2MB => nr.MFD_HUGE_2MB
  | HugetlbSize.Huge8MB => nr.MFD_HUGE_8MB
  | HugetlbSize.Huge16MB => nr.MFD_HUGE_16MB
  | HugetlbSize.Huge256MB => nr.MFD_HUGE_256MB
  | HugetlbSize.Huge1GB => nr.MFD_HUGE_1GB
  | HugetlbSize.Huge2GB => nr.MFD_HUGE_2GB
  | HugetlbSize.Huge16GB => nr.MFD_HUGE_16GB

/-- Builder `MemfdOptions` from src/src/memfd.rs. -/
structure MemfdOptions where
  allow_sealing : Bool
  cloexec : Bool
  hugetlb : Option HugetlbSize
deriving DecidableEq, Repr

/-- Impl `Default for MemfdOptions` from src/src/memfd.rs. -/
def MemfdOptions.default : MemfdOptions :=
  { allow_sealing := false
    cloexec := false
    hugetlb := none }

/-- Constructor `MemfdOptions::new` from src/src/memfd.rs: the default set of
options for `Memfd` creation. -/
def MemfdOptions.new : MemfdOptions := MemfdOptions.default

/-- Method `MemfdOptions::bitflags` from src/src/memfd.rs: translates the
current options into a bitflags value for `memfd_create`. -/
def MemfdOptions.bitflags (o : MemfdOptions) : Nat :=
  let bits : Nat := 0
  let bits := if o.allow_sealing then bits ||| nr.MFD_ALLOW_SEALING else bits
  let bits := if o.cloexec then bits ||| nr.MFD_CLOEXEC else bits
  let bits := match o.hugetlb with
    | some h => (bits ||| HugetlbSize.bitflags h) ||| nr.MFD_HUGETLB
    | none => bits
  bits

/-- OS error value, as carried by `errno::Errno` / `rustix::io::Error`
(the raw kernel error code). -/
structure Errno where
  code : Nat
deriving DecidableEq, Repr

/-- Enum `Error` from src/src/errors.rs: enumeration of errors possible in
this library; each variant carries the underlying OS error. -/
inductive Error where
  /-- Cannot create the memfd. -/
  | Create (e : Errno)
  /-- Cannot add new seals to the memfd. -/
  | AddSeals (e : Errno)
  /-- Cannot read the seals of a memfd. -/
  | GetSeals (e : Errno)
deriving DecidableEq, Repr

/-- The kinds (constructors) of `Error` in src/src/errors.rs, as a closed
enumeration. -/
inductive ErrorTag where
  /-- Tag of `Error::Create`. -/
  | Create
  /-- Tag of `Error::AddSeals`. -/
  | AddSeals
  /-- Tag of `Error::GetSeals`. -/
  | GetSeals
deriving DecidableEq, Fintype, Repr

/-- The kind of an `Error` value. -/
def Error.tag : Error → ErrorTag
  | Error.Create _ => ErrorTag.Create
  | Error.AddSeals _ => ErrorTag.AddSeals
  | Error.GetSeals _ => ErrorTag.GetSeals

/-- Method `Error::source` from src/src/errors.rs: exposes the wrapped OS
error as the diagnostic cause, for every variant. -/
def Error.source : Error → Option Errno
  | Error.Create e => some e
  | Error.AddSeals e => some e
  | Error.GetSeals e => some e

/-- A syscall as issued by the embedding, recording the exact arguments that
cross the foreign-call boundary. -/
inductive Syscall where
  /-- `syscall(SYS_memfd_create, name, flags)`. -/
  | memfd_create (name : List Char) (flags : Nat)
  /-- `syscall(SYS_fcntl, fd, F_ADD_SEALS, mask)`. -/
  | fcntl_add_seals (fd : Nat) (mask : Nat)
  /-- `syscall(SYS_fcntl, fd, F_GET_SEALS)`. -/
  | fcntl_get_seals (fd : Nat)
deriving DecidableEq, Repr

/-- Kernel model: the return value of each raw syscall, plus the `errno`
value observed after a failing call. -/
structure Kernel where
  memfd_create_ret : List Char → Nat → Int
  add_seals_ret : Nat → Nat → Int
  get_seals_ret : Nat → Int
  errno : Errno

/-- An open file (`std::fs::File`), modelled by the descriptor it owns. -/
structure File where
  fd : Nat
deriving DecidableEq, Repr

/-- Handle `Memfd` from src/src/memfd.rs: an anonymous volatile file with
sealing capabilities, owning one `File`. -/
structure Memfd where
  file : File
deriving DecidableEq, Repr

/-- Type `either::Either`, as returned by `Memfd::try_from_file`. -/
inductive Either (α β : Type) where
  /-- The left alternative. -/
  | Left (a : α)
  /-- The right alternative. -/
  | Right (b : β)
deriving DecidableEq, Repr

/-- Helper `Memfd::file_get_seals` from src/src/memfd.rs: raw `F_GET_SEALS`
query; on `r < 0` it fails with the OS error read from `errno` (rendered with
the taxonomy of src/src/errors.rs as `Error.GetSeals`), otherwise it returns
the bitmask `r`. Paired with the trace of syscalls issued. -/
def Memfd.file_get_seals (k : Kernel) (fp : File) :
    Except Error Nat × List Syscall :=
  let fd := fp.fd
  let r := k.get_seals_ret fd
  if r < 0 then
    (Except.error (Error.GetSeals k.errno), [Syscall.fcntl_get_seals fd])
  else
    (Except.ok r.toNat, [Syscall.fcntl_get_seals fd])

/-- Method `Memfd::try_from_file` from src/src/memfd.rs: probe the descriptor
with `F_GET_SEALS`; on success wrap the same file in a `Memfd` (Left), on
failure hand the original file back (Right). -/
def Memfd.try_from_file (k : Kernel) (fp : File) : Either Memfd File :=
  match (Memfd.file_get_seals k fp).1 with
  | Except.ok _ => Either.Left { file := fp }
  | Except.error _ => Either.Right fp

/-- Method `Memfd::as_file` from src/src/memfd.rs: view of the owned file. -/
def Memfd.as_file (m : Memfd) : File := m.file

/-- Method `Memfd::into_file` from src/src/memfd.rs: consume the handle and
return the underlying file. -/
def Memfd.into_file (m : Memfd) : File := m.file

/-- Method `Memfd::seals` from src/src/memfd.rs: query the seal bitmask and
decode it into a seal set. -/
def Memfd.seals (k : Kernel) (m : Memfd) :
    Except Error SealsHashSet × List Syscall :=
  match Memfd.file_get_seals k m.file with
  | (Except.ok flags, tr) => (Except.ok (bitflags_to_seals flags), tr)
  | (Except.error e, tr) => (Except.error e, tr)

/-- Method `Memfd::add_seals` from src/src/memfd.rs: encode the set and issue
`F_ADD_SEALS` with exactly that bitmask; on `r < 0` fail with the OS error
read from `errno` (`Error.AddSeals`). Paired with the trace of syscalls
issued. -/
def Memfd.add_seals (k : Kernel) (m : Memfd) (seals : SealsHashSet) :
    Except Error Unit × List Syscall :=
  let fd := m.file.fd
  let flags := seals_to_bitflags seals
  let r := k.add_seals_ret fd flags
  if r < 0 then
    (Except.error (Error.AddSeals k.errno), [Syscall.fcntl_add_seals fd flags])
  else
    (Except.ok (), [Syscall.fcntl_add_seals fd flags])

/-- Method `Memfd::add_seal` from src/src/memfd.rs: wrap `add_seals` with the
singleton set built from the one seal. -/
def Memfd.add_seal (k : Kernel) (m : Memfd) (s : FileSeal) :
    Except Error Unit × List Syscall :=
  let set : SealsHashSet := {s}
  Memfd.add_seals k m set

/-- Conversion `ffi::CString::new` as used by `MemfdOptions::create`: fails
exactly when the string contains an embedded null byte. -/
def CString.new (s : String) : Option (List Char) :=
  if (Char.ofNat 0) ∈ s.data then none else some s.data

/-- Modelled from the spec: the `errors` module that src/src/memfd.rs compiles
against (an error-chain style `ErrorKind` with a `From<ffi::NulError>`
conversion backing the `?` on `CString::new`, and a `Sys(errno)` kind) is not
under src/; src/src/errors.rs is a different historical variant without a
name-encoding kind. Per the spec's error taxonomy, the name-encoding failure
kind is `NameEncodingError` and the creation-syscall failure kind is
`CreateError` carrying the OS error. -/
inductive CreateErrorKind where
  /-- Name argument could not be represented as a null-terminated string. -/
  | NameEncodingError
  /-- Creation syscall failed with the given OS error. -/
  | CreateError (os : Errno)
deriving DecidableEq, Repr

/-- Method `MemfdOptions::create` from src/src/memfd.rs: convert the name to
a C string (failing before any syscall on an embedded null byte), then issue
`SYS_memfd_create` with the assembled flag word; on `r < 0` fail with the OS
error, otherwise wrap the returned descriptor in a new `Memfd`. Paired with
the trace of syscalls issued. -/
def MemfdOptions.create (k : Kernel) (o : MemfdOptions) (name : String) :
    Except CreateErrorKind Memfd × List Syscall :=
  match CString.new name with
  | none => (Except.error CreateErrorKind.NameEncodingError, [])
  | some cname =>
    let flags := o.bitflags
    let r := k.memfd_create_ret cname flags
    if r < 0 then
      (Except.error (CreateErrorKind.CreateError k.errno),
        [Syscall.memfd_create cname flags])
    else
      (Except.ok { file := { fd := r.toNat } },
        [Syscall.memfd_create cname flags])

/-- A concrete kernel on which every syscall succeeds (returns descriptor 3,
or the empty seal bitmask). -/
def kernelOk : Kernel :=
  { memfd_create_ret := fun _ _ => 3
    add_seals_ret := fun _ _ => 0
    get_seals_ret := fun _ => 0
    errno := { code := 0 } }

/-- A concrete kernel on which every syscall fails, with errno 22 (EINVAL). -/
def kernelErr : Kernel :=
  { memfd_create_ret := fun _ _ => -1
    add_seals_ret := fun _ _ => -1
    get_seals_ret := fun _ => -1
    errno := { code := 22 } }

end Memfdrs

namespace Memfdrs

/-- Claim C1: for every set of seal kinds, decoding the encoding yields the
set back: `bitflags_to_seals (seals_to_bitflags S) = S` for all sixteen
subsets of the four seal kinds. -/
theorem seal_codec_roundtrip :
    ∀ S : SealsHashSet, bitflags_to_seals (seals_to_bitflags S) = S := by
  decide

theorem mem_bitflags_to_seals (m : Nat) (s : FileSeal) :
    s ∈ bitflags_to_seals m ↔ m &&& s.bitflags = s.bitflags := by
  cases s <;>
    simp only [bitflags_to_seals, FileSeal.bitflags] <;>
    split_ifs <;>
    simp_all [Finset.mem_insert, beq_iff_eq]

theorem bitflags_to_seals_mask (m : Nat) :
    bitflags_to_seals (m &&& 15) = bitflags_to_seals m := by
  apply Finset.ext
  intro s
  rw [mem_bitflags_to_seals, mem_bitflags_to_seals, Nat.and_assoc]
  have h : 15 &&& s.bitflags = s.bitflags := by
    cases s <;> decide
  rw [h]

/-- Claim C7: a seal kind is in the decoded set exactly when its bit is
contained in the mask, and bits outside the four known seal bits (whose OR
is 15) are ignored; decoding is a total function of the mask. -/
theorem bitflags_to_seals_spec :
    (∀ (m : Nat) (s : FileSeal),
        s ∈ bitflags_to_seals m ↔ m &&& s.bitflags = s.bitflags) ∧
    (∀ m : Nat, bitflags_to_seals m = bitflags_to_seals (m &&& 15)) :=
  ⟨mem_bitflags_to_seals, fun m => (bitflags_to_seals_mask m).symm⟩

theorem seal_roundtrip_low : ∀ n : Fin 16,
    seals_to_bitflags (bitflags_to_seals n.val) = n.val := by
  decide

/-- Claim C10: encoding the decoded set projects the mask onto the four known
seal bits (whose OR is 15); on masks with only known bits the composition is
the identity. -/
theorem encode_decode_projection :
    (∀ m : Nat, seals_to_bitflags (bitflags_to_seals m) = m &&& 15) ∧
    (∀ m : Nat, m &&& 15 = m → seals_to_bitflags (bitflags_to_seals m) = m) := by
  have key : ∀ m : Nat, seals_to_bitflags (bitflags_to_seals m) = m &&& 15 := by
    intro m
    have h2 : m &&& 15 < 16 := Nat.lt_succ_of_le Nat.and_le_right
    rw [← bitflags_to_seals_mask m]
    exact seal_roundtrip_low ⟨m &&& 15, h2⟩
  exact ⟨key, fun m h => by rw [key m, h]⟩

/-- Witness for the hypothesis-bearing part of the C10 theorem, at the
concrete mask 5 (Seal | Grow). -/
theorem encode_decode_projection_witness :
    (5 : Nat) &&& 15 = 5 ∧ seals_to_bitflags (bitflags_to_seals 5) = 5 :=
  ⟨by decide, encode_decode_projection.2 5 (by decide)⟩

/-- Claim C4: default construction of the options builder (`new` / `default`)
yields allow_sealing = false, close_on_exec = false, hugetlb = none. -/
theorem memfd_options_default_spec :
    MemfdOptions.new = MemfdOptions.mk false false none ∧
    MemfdOptions.default = MemfdOptions.mk false false none :=
  ⟨rfl, rfl⟩

/-- Claim C5: the flag word passed by `create` to the creation syscall is the
bitwise OR of the allow-sealing bit if set, the close-on-exec bit if set, and
the hugetlb bit together with the configured page-size bit if a size is set;
all three unset yields zero. -/
theorem memfd_options_bitflags_spec :
    (∀ o : MemfdOptions, o.bitflags =
      (if o.allow_sealing then nr.MFD_ALLOW_SEALING else 0) |||
      (if o.cloexec then nr.MFD_CLOEXEC else 0) |||
      (match o.hugetlb with
        | some h => nr.MFD_HUGETLB ||| HugetlbSize.bitflags h
        | none => 0)) ∧
    (MemfdOptions.mk false false none).bitflags = 0 ∧
    (∀ (k : Kernel) (o : MemfdOptions) (name : String) (cname : List Char),
      CString.new name = some cname →
      (MemfdOptions.create k o name).2 =
        [Syscall.memfd_create cname o.bitflags]) := by
  refine ⟨?_, by decide, ?_⟩
  · intro o
    rcases o with ⟨a, c, hu⟩
    rcases hu with _ | h
    · cases a <;> cases c <;> decide
    · cases a <;> cases c <;> cases h <;> decide
  · intro k o name cname hc
    simp only [MemfdOptions.create, hc]
    split <;> rfl

/-- Witness for the hypothesis-bearing part of the C5 theorem: on a concrete
kernel and the name "x", the one creation syscall carries the assembled
flag word. -/
theorem memfd_options_bitflags_spec_witness :
    CString.new "x" = some ['x'] ∧
    (MemfdOptions.create kernelOk (MemfdOptions.mk true true none) "x").2 =
      [Syscall.memfd_create ['x'] (MemfdOptions.mk true true none).bitflags] :=
  ⟨by decide,
   memfd_options_bitflags_spec.2.2 kernelOk (MemfdOptions.mk true true none)
     "x" ['x'] (by decide)⟩

/-- Claim C2: when the get-seals probe succeeds `try_from_file` returns a
Handle wrapping the same file; when the probe fails it returns the original
file unchanged; no OS error value is propagated (the result type carries
none). -/
theorem try_from_file_spec (k : Kernel) (fp : File) :
    (∀ r, (Memfd.file_get_seals k fp).1 = Except.ok r →
        Memfd.try_from_file k fp = Either.Left { file := fp }) ∧
    (∀ e, (Memfd.file_get_seals k fp).1 = Except.error e →
        Memfd.try_from_file k fp = Either.Right fp) := by
  constructor <;> intro x hx <;> simp [Memfd.try_from_file, hx]

/-- Witness for the C2 theorem: a kernel answering the probe yields a wrapped
Handle, a kernel failing the probe hands the same file back. -/
theorem try_from_file_spec_witness :
    Memfd.try_from_file kernelOk { fd := 3 } =
        Either.Left { file := { fd := 3 } } ∧
    Memfd.try_from_file kernelErr { fd := 3 } = Either.Right { fd := 3 } :=
  ⟨(try_from_file_spec kernelOk { fd := 3 }).1 0 rfl,
   (try_from_file_spec kernelErr { fd := 3 }).2
     (Error.GetSeals { code := 22 }) rfl⟩

/-- Claim C3: for every name containing an embedded null byte, `create` fails
with the name-encoding error kind and issues no syscall (empty trace), so no
kernel object is created. -/
theorem create_nul_name_spec (k : Kernel) (o : MemfdOptions) (name : String)
    (h : (Char.ofNat 0) ∈ name.data) :
    MemfdOptions.create k o name =
      (Except.error CreateErrorKind.NameEncodingError, []) := by
  simp [MemfdOptions.create, CString.new, h]

/-- Witness for the C3 theorem at the concrete name "a\x00b". -/
theorem create_nul_name_spec_witness :
    MemfdOptions.create kernelOk MemfdOptions.default "a\x00b" =
      (Except.error CreateErrorKind.NameEncodingError, []) :=
  create_nul_name_spec kernelOk MemfdOptions.default "a\x00b" (by decide)

/-- Claim C6: `add_seals` hands the add-seals syscall exactly the Seal Codec
encoding of the given set (one syscall, with that mask — nothing merged in),
succeeds exactly when the syscall does, and any failure is `AddSeals`
carrying the OS error. -/
theorem add_seals_spec (k : Kernel) (m : Memfd) (s : SealsHashSet) :
    ((Memfd.add_seals k m s).2 =
        [Syscall.fcntl_add_seals m.file.fd (seals_to_bitflags s)]) ∧
    (((Memfd.add_seals k m s).1 = Except.ok ()) ↔
        ¬ k.add_seals_ret m.file.fd (seals_to_bitflags s) < 0) ∧
    (∀ e, (Memfd.add_seals k m s).1 = Except.error e →
        e = Error.AddSeals k.errno) := by
  by_cases h : k.add_seals_ret m.file.fd (seals_to_bitflags s) < 0 <;>
    simp [Memfd.add_seals, h]

/-- Witness for the hypothesis-bearing part of the C6 theorem: on a kernel
whose add-seals call fails with EINVAL, the error is `AddSeals` with that
errno. -/
theorem add_seals_spec_witness :
    Error.AddSeals { code := 22 } = Error.AddSeals kernelErr.errno :=
  (add_seals_spec kernelErr { file := { fd := 3 } } ∅).2.2
    (Error.AddSeals { code := 22 }) rfl

/-- Claim C9: `add_seal` is definitionally `add_seals` on the singleton set,
and the bitmask encoded from a singleton is exactly that kind's bit. -/
theorem add_seal_singleton (k : Kernel) (m : Memfd) (s : FileSeal) :
    Memfd.add_seal k m s = Memfd.add_seals k m {s} ∧
    seals_to_bitflags {s} = s.bitflags :=
  ⟨rfl, by cases s <;> decide⟩

/-- Counterexample for claim C8: the error taxonomy of src/src/errors.rs does
not have four kinds (it has no name-encoding kind). -/
theorem error_taxonomy_not_four_kinds : ¬ (Fintype.card ErrorTag = 4) := by
  decide

/-- Claim C8 as amended: the error taxonomy of src/src/errors.rs has exactly
three kinds — Create, AddSeals, GetSeals, all reachable — and every kind
wraps an OS error which `source` exposes as the diagnostic cause. -/
theorem error_taxonomy_three_kinds :
    Fintype.card ErrorTag = 3 ∧
    Function.Surjective Error.tag ∧
    (∀ e : Error, ∃ os, Error.source e = some os) := by
  refine ⟨by decide, ?_, ?_⟩
  · intro t
    cases t
    · exact ⟨Error.Create { code := 0 }, rfl⟩
    · exact ⟨Error.AddSeals { code := 0 }, rfl⟩
    · exact ⟨Error.GetSeals { code := 0 }, rfl⟩
  · intro e
    cases e <;> exact ⟨_, rfl⟩

end Memfdrs
